import Mathlib

/-!
Verification of the envisage repository core against its specification.

Part 1 embeds src/enthought/envisage/extension_point_binding.py: the
ExtensionPointBinding class keeps one trait (field) of one object in sync
with one extension point of a shared extension registry.  The embedding
tracks, for a single binding, the slice of the world the binding touches:
the registry value at the binding's extension point, the object's field
value, the binding's `_event_handled` flag, the two listener subscriptions,
and call counters for the collaborator operations the claims count
(set_extensions, get_extensions, field writes).  The Python callback
cascade (a registry write dispatches the extension listener synchronously;
a notifying field write dispatches the trait listener synchronously) is
embedded as a single recursive interpreter `exec` over a call tag, with a
fuel argument bounding dispatch depth; running out of fuel is reported as
an explicit error, so an `error = none` result certifies that the real
(unbounded) cascade terminated with exactly the effects stated.

Exceptions raised by the collaborators (the registry read raising, the
object's field write raising, and the AttributeError raised when the
class-level `extension_registry` attribute is still None) are embedded as
fault flags in the state and an `Option Err` in the outcome; Python
exception propagation (mutations made before the raise survive, code after
the raising call does not run) is mirrored exactly, in particular the lack
of a try/finally in `_on_extension_point_changed`.
-/

/-- The value held at an extension point: the ordered list of contributed
extensions, as returned by the registry's get_extensions. -/
abbrev Value := List String

/-- The exceptions the embedded code can raise.  The source raises no
exception of its own (in particular it defines no ConfigurationError);
these all come from collaborators or from the fuel bound. -/
inductive Err where
  | attributeError : Err
  | registryGetError : Err
  | fieldSetError : Err
  | outOfFuel : Err
  deriving DecidableEq, Repr

/-- The slice of world state one ExtensionPointBinding touches.

  - registryVal: the registry's current value at self.extension_point
  - fieldVal: the current value of getattr(self.obj, self.trait_name)
  - event_handled: the binding's `_event_handled` reentrancy flag
  - traitListenerAttached: obj.on_trait_change(self._on_trait_changed, ...)
    has been called (and never removed; the source has no removal)
  - epListenerAttached: extension_registry.add_extension_listener(...) has
    been called (and never removed)
  - registryAttached: the *class-level* attribute
    ExtensionPointBinding.extension_registry, shared by every binding
    instance, is not None (false embeds `extension_registry = None`)
  - getFault / fieldSetFault: fault injection for collaborator calls:
    registry.get_extensions raising, resp. obj.set raising
  - trait_name: the bound field's name; enthought HasTraits.set accepts any
    name (including the empty string) for a plain HasTraits object, so no
    operation of the source branches on it
  - the four counters count completed collaborator calls. -/
structure BindingState where
  registryVal : Value
  fieldVal : Value
  event_handled : Bool
  traitListenerAttached : Bool
  epListenerAttached : Bool
  registryAttached : Bool
  getFault : Bool
  fieldSetFault : Bool
  trait_name : String
  setExtensionsCalls : Nat
  getExtensionsCalls : Nat
  fieldWrites : Nat
  notifiedFieldWrites : Nat
  deriving DecidableEq, Repr

/-- The result of running a handler: the final state together with the
exception propagating out of it, if any (Python semantics: state mutations
made before the raise are kept). -/
structure Outcome where
  error : Option Err
  state : BindingState
  deriving DecidableEq, Repr

/-- Tags for the four mutually recursive operations of the callback
cascade; each tag is interpreted by one branch of `exec` that is a direct
transcription of the corresponding Python code. -/
inductive Call where
  | on_trait_changed : Value → Call
  | registry_set_extensions : Value → Call
  | on_extension_point_changed : Call
  | set_trait : Bool → Call
  deriving DecidableEq, Repr

/-- The synchronous callback cascade of extension_point_binding.py, one
branch per operation:

  - on_trait_changed new: `ExtensionPointBinding._on_trait_changed`:
    `if not self._event_handled:
       self.extension_registry.set_extensions(self.extension_point, new)`
    (accessing the class attribute raises AttributeError when it is None);
  - registry_set_extensions v: the registry collaborator's set_extensions
    (spec section 6): store the value and synchronously dispatch the
    subscribed extension listener, here `_on_extension_point_changed`;
  - on_extension_point_changed: `_on_extension_point_changed`:
    `self._event_handled = True; self._set_trait(); self._event_handled
    = False` — note: no try/finally, so when `_set_trait` raises, the
    flag-clearing line does not run and the exception propagates;
  - set_trait notify: `_set_trait`: read
    `self.extension_registry.get_extensions(self.extension_point)` and
    write it to the object's trait via
    `self.obj.set(trait_change_notify=notify, **traits)`; a notifying
    write dispatches the subscribed trait listener synchronously. -/
def exec : Nat → Call → BindingState → Outcome
  | 0, _, s => Outcome.mk (some Err.outOfFuel) s
  | fuel + 1, c, s =>
    match c with
    | Call.on_trait_changed new =>
      if s.event_handled then Outcome.mk none s
      else if s.registryAttached then
        exec fuel (Call.registry_set_extensions new) s
      else Outcome.mk (some Err.attributeError) s
    | Call.registry_set_extensions v =>
      let s1 := { s with registryVal := v,
                         setExtensionsCalls := s.setExtensionsCalls + 1 }
      if s1.epListenerAttached then
        exec fuel Call.on_extension_point_changed s1
      else Outcome.mk none s1
    | Call.on_extension_point_changed =>
      let s1 := { s with event_handled := true }
      let r := exec fuel (Call.set_trait true) s1
      match r.error with
      | some e => Outcome.mk (some e) r.state
      | none => Outcome.mk none { r.state with event_handled := false }
    | Call.set_trait notify =>
      if s.registryAttached then
        if s.getFault then Outcome.mk (some Err.registryGetError) s
        else
          let value := s.registryVal
          let s1 := { s with getExtensionsCalls := s.getExtensionsCalls + 1 }
          if s1.fieldSetFault then Outcome.mk (some Err.fieldSetError) s1
          else
            let s2 := { s1 with
              fieldVal := value,
              fieldWrites := s1.fieldWrites + 1,
              notifiedFieldWrites :=
                s1.notifiedFieldWrites + (if notify then 1 else 0) }
            if notify && s2.traitListenerAttached then
              exec fuel (Call.on_trait_changed value) s2
            else Outcome.mk none s2
      else Outcome.mk (some Err.attributeError) s

/-- `ExtensionPointBinding._on_trait_changed`, as entered by the object's
notification mechanism. -/
def on_trait_changed (fuel : Nat) (new : Value) (s : BindingState) : Outcome :=
  exec fuel (Call.on_trait_changed new) s

/-- `ExtensionPointBinding._on_extension_point_changed`, as entered by the
registry's listener dispatch. -/
def on_extension_point_changed (fuel : Nat) (s : BindingState) : Outcome :=
  exec fuel Call.on_extension_point_changed s

/-- `ExtensionPointBinding._set_trait`. -/
def set_trait (fuel : Nat) (notify : Bool) (s : BindingState) : Outcome :=
  exec fuel (Call.set_trait notify) s

/-- `ExtensionPointBinding._initialize` (renamed: wires up the listeners):
`self.obj.on_trait_change(self._on_trait_changed, self.trait_name)` and
`self.extension_registry.add_extension_listener(
    self._on_extension_point_changed, self.extension_point)`. -/
def wire_up (s : BindingState) : BindingState :=
  { s with traitListenerAttached := true, epListenerAttached := true }

/-- `ExtensionPointBinding.__init__`: after HasTraits construction stores
the traits, run `self._set_trait(notify=False)` and then, only if that
returned normally, `self._initialize()`.  An exception from the initial
pull propagates out of the constructor before any listener is attached. -/
def construct (fuel : Nat) (s : BindingState) : Outcome :=
  let r := exec fuel (Call.set_trait false) s
  match r.error with
  | some e => Outcome.mk (some e) r.state
  | none => Outcome.mk none (wire_up r.state)

/-- `bind_extension_point`: the factory just calls the constructor with
the given object, trait name and extension point; it adds nothing. -/
def bind_extension_point (fuel : Nat) (s : BindingState) : Outcome :=
  construct fuel s

/-- An external party writing the extension point through the registry:
registry.set_extensions followed by the registry's synchronous listener
dispatch (reaching the binding's listener when subscribed). -/
def external_set_extensions (fuel : Nat) (v : Value) (s : BindingState) :
    Outcome :=
  exec fuel (Call.registry_set_extensions v) s

/-- A user assigning a value to the bound field: the observable object
(spec section 6) stores the value and dispatches its subscribed
field-change listeners, reaching `_on_trait_changed` when subscribed. -/
def user_field_write (fuel : Nat) (v : Value) (s : BindingState) : Outcome :=
  let s1 := { s with fieldVal := v,
                     fieldWrites := s.fieldWrites + 1,
                     notifiedFieldWrites := s.notifiedFieldWrites + 1 }
  if s1.traitListenerAttached then exec fuel (Call.on_trait_changed v) s1
  else Outcome.mk none s1

/-- The methods defined on the ExtensionPointBinding class in the source
file (plus the module-level factory), by their source names. -/
def bindingMethodNames : List String :=
  ["__init__", "_on_trait_changed", "_on_extension_point_changed",
   "_initialize", "_set_trait", "bind_extension_point"]

/-- A steady-state binding: constructed (both listeners attached), flag
clear, registry attached, no faults; used by the concrete witnesses. -/
def steadyState : BindingState :=
  BindingState.mk ["ext1"] ["ext1"] false true true true false false
    "my_trait" 0 0 0 0

/-- A steady-state binding whose registry read raises (fault injection on
get_extensions). -/
def faultyGetState : BindingState :=
  { steadyState with getFault := true }

/-- A steady-state binding whose object's field write raises (fault
injection on obj.set). -/
def faultyFieldSetState : BindingState :=
  { steadyState with fieldSetFault := true }

/-- A binding about to be constructed: registry attached, no listeners
subscribed yet, object field still empty. -/
def freshState : BindingState :=
  BindingState.mk ["ext1"] [] false false false true false false
    "my_trait" 0 0 0 0

/-- A binding about to be constructed while the class attribute
extension_registry is still None. -/
def noRegistryState : BindingState :=
  { freshState with registryAttached := false }

/-- A binding about to be constructed with an empty trait name. -/
def emptyNameState : BindingState :=
  { freshState with trait_name := "" }

/-!
Part 2 models the CanopyPluginManager.  The manager's own module is not
part of the given sources; only its test file
(src/envisage/tests/canopy_plugin_manager_test_case.py) is, so the
manager is modelled from the spec (sections 3, 4.3 and 8): candidates are
taken as given (path scanning is the out-of-scope Plugin Source Resolver),
include/exclude filtering uses shell-glob (fnmatch) matching on the plugin
id, evaluated include first then exclude, and start/stop fan out over the
held plugins setting their status flags.  The glob matcher follows
Python's fnmatch translation: `*` matches any sequence, `?` any single
character, `[seq]` a character class with ranges, `[!seq]` its negation, a
`]` first in a class is a literal member, and an unterminated `[` is a
literal `[`; matching is case-sensitive.  The matcher carries a fuel
argument only to stay structurally recursive: every recursive call
strictly decreases the combined length of pattern and text, so the bound
`pattern.length + text.length + 1` used by `fnmatch` is never reached.
-/

/-- Membership of a character in the body of a glob character class:
`a-b` is a range, anything else is a literal (a `-` first or last in the
body is a literal, as in fnmatch). -/
def charInClass : List Char → Char → Bool
  | [], _ => false
  | a :: '-' :: b :: rest, c =>
    (decide (a ≤ c) && decide (c ≤ b)) || charInClass rest c
  | a :: rest, c => (a == c) || charInClass rest c

/-- Scan for the `]` closing a character class; returns the class body and
the rest of the pattern, or none when the class is unterminated. -/
def findCloseBracket : List Char → Option (List Char × List Char)
  | [] => none
  | ']' :: rest => some ([], rest)
  | c :: rest =>
    match findCloseBracket rest with
    | none => none
    | some (body, after) => some (c :: body, after)

/-- Split the pattern text following a `[` into (negated, class body,
rest of pattern), following fnmatch: a leading `!` negates, and a `]`
right after the `[` (or after the `!`) is a literal member of the class. -/
def splitClass (cs : List Char) : Option (Bool × List Char × List Char) :=
  match cs with
  | '!' :: ']' :: rest2 =>
    match findCloseBracket rest2 with
    | none => none
    | some (body, after) => some (true, ']' :: body, after)
  | '!' :: rest =>
    match findCloseBracket rest with
    | none => none
    | some (body, after) => some (true, body, after)
  | ']' :: rest2 =>
    match findCloseBracket rest2 with
    | none => none
    | some (body, after) => some (false, ']' :: body, after)
  | _ =>
    match findCloseBracket cs with
    | none => none
    | some (body, after) => some (false, body, after)

/-- Glob matching of a pattern against a text, fnmatch semantics. -/
def gmatch : Nat → List Char → List Char → Bool
  | 0, _, _ => false
  | _ + 1, [], cs => cs.isEmpty
  | fuel + 1, '*' :: ps, cs =>
    gmatch fuel ps cs ||
      (match cs with
       | [] => false
       | _ :: cs2 => gmatch fuel ('*' :: ps) cs2)
  | fuel + 1, '?' :: ps, cs =>
    (match cs with
     | [] => false
     | _ :: cs2 => gmatch fuel ps cs2)
  | fuel + 1, '[' :: ps, cs =>
    (match splitClass ps with
     | some (neg, body, rest) =>
       (match cs with
        | [] => false
        | c :: cs2 =>
          (if neg then !(charInClass body c) else charInClass body c) &&
            gmatch fuel rest cs2)
     | none =>
       (match cs with
        | [] => false
        | c :: cs2 => (c == '[') && gmatch fuel ps cs2))
  | fuel + 1, p :: ps, cs =>
    (match cs with
     | [] => false
     | c :: cs2 => (p == c) && gmatch fuel ps cs2)

/-- Shell-glob match of a pattern against a string (Python fnmatch,
case-sensitive).  The fuel bound strictly exceeds the largest possible
number of recursion steps, so it never cuts a match short. -/
def fnmatch (pat s : String) : Bool :=
  gmatch (pat.length + s.length + 1) pat.toList s.toList

/-- A plugin: an id plus observable started/stopped status flags. -/
structure Plugin where
  id : String
  started : Bool
  stopped : Bool
  deriving DecidableEq, Repr

/-- Does the id match at least one pattern of the list (OR across the
list, each pattern matched independently)? -/
def matchesAny (pats : List String) (s : String) : Bool :=
  pats.any (fun p => fnmatch p s)

/-- Modelled from the spec: the CanopyPluginManager filtering stage (the
manager's source module is absent; spec section 3 invariant and section
4.3): the include filter is applied first (an empty include list keeps
everything), then the exclude filter (an empty exclude list removes
nothing), so exclude is evaluated after include and wins on conflict. -/
def filterPlugins (incl excl : List String) (candidates : List Plugin) :
    List Plugin :=
  let afterIncl :=
    if incl.isEmpty then candidates
    else candidates.filter (fun p => matchesAny incl p.id)
  if excl.isEmpty then afterIncl
  else afterIncl.filter (fun p => !(matchesAny excl p.id))

/-- The per-candidate predicate the spec states as the filtering
invariant: (include empty OR id matches some include pattern) AND
(exclude empty OR id matches no exclude pattern). -/
def keepPlugin (incl excl : List String) (p : Plugin) : Bool :=
  (incl.isEmpty || matchesAny incl p.id) &&
    (excl.isEmpty || !(matchesAny excl p.id))

/-- A plugin manager holding its filtered, ordered plugin collection. -/
structure PluginManager where
  plugins : List Plugin
  deriving DecidableEq, Repr

/-- Modelled from the spec: CanopyPluginManager construction resolves the
candidate set and applies include/exclude filtering; no starts happen. -/
def CanopyPluginManager (incl excl : List String)
    (candidates : List Plugin) : PluginManager :=
  PluginManager.mk (filterPlugins incl excl candidates)

/-- Modelled from the spec: start() invokes start on every held plugin in
sequence order; a plugin's start records started = true. -/
def PluginManager.start (m : PluginManager) : PluginManager :=
  PluginManager.mk (m.plugins.map (fun p => { p with started := true }))

/-- Modelled from the spec: stop() invokes stop on every held plugin in
reverse sequence order; a plugin's stop records stopped = true. -/
def PluginManager.stop (m : PluginManager) : PluginManager :=
  PluginManager.mk
    ((m.plugins.reverse.map (fun p => { p with stopped := true })).reverse)

/-- The candidate plugins of the test fixture, in discovery order. -/
def fooPlugin : Plugin := Plugin.mk "acme.foo" false false

/-- Second test candidate. -/
def barPlugin : Plugin := Plugin.mk "acme.bar" false false

/-- Third test candidate. -/
def bazPlugin : Plugin := Plugin.mk "acme.baz" false false

/-- The candidate list of the test fixture. -/
def testCandidates : List Plugin := [fooPlugin, barPlugin, bazPlugin]

/-- Claim C1: an externally triggered registry change delivered to the
binding's registry listener makes the binding write the registry's current
value into the bound field exactly once, and no set_extensions call is
made during the handling (the field-change notification raised by the
binding's own write is suppressed by the flag), so the registry write
count grows only by the external write itself. -/
theorem registry_change_syncs_field_once_without_write_back
    (fuel : Nat) (v : Value) (s : BindingState)
    (h1 : s.event_handled = false)
    (h2 : s.traitListenerAttached = true)
    (h3 : s.epListenerAttached = true)
    (h4 : s.registryAttached = true)
    (h5 : s.getFault = false)
    (h6 : s.fieldSetFault = false) :
    external_set_extensions (fuel + 4) v s =
      Outcome.mk none
        { s with registryVal := v,
                 setExtensionsCalls := s.setExtensionsCalls + 1,
                 getExtensionsCalls := s.getExtensionsCalls + 1,
                 fieldVal := v,
                 fieldWrites := s.fieldWrites + 1,
                 notifiedFieldWrites := s.notifiedFieldWrites + 1 } := by
  cases s
  simp_all [external_set_extensions, exec]

/-- Witness for C1: the theorem applied to a concrete steady state. -/
theorem registry_change_syncs_field_once_without_write_back_witness :
    external_set_extensions 4 ["a", "b"] steadyState =
      Outcome.mk none
        { steadyState with registryVal := ["a", "b"],
                           setExtensionsCalls := 1,
                           getExtensionsCalls := 1,
                           fieldVal := ["a", "b"],
                           fieldWrites := 1,
                           notifiedFieldWrites := 1 } :=
  registry_change_syncs_field_once_without_write_back 0 ["a", "b"]
    steadyState rfl rfl rfl rfl rfl rfl

/-- Claim C2: a user-initiated write of a value v to the bound field, with
the suppress flag clear, causes exactly one set_extensions call to the
registry, and after the registry's resulting change notification is
handled the field holds the same value v again (the round trip
field to registry to field yields the original value). -/
theorem user_write_round_trips_once
    (fuel : Nat) (v : Value) (s : BindingState)
    (h1 : s.event_handled = false)
    (h2 : s.traitListenerAttached = true)
    (h3 : s.epListenerAttached = true)
    (h4 : s.registryAttached = true)
    (h5 : s.getFault = false)
    (h6 : s.fieldSetFault = false) :
    user_field_write (fuel + 5) v s =
      Outcome.mk none
        { s with fieldVal := v,
                 registryVal := v,
                 setExtensionsCalls := s.setExtensionsCalls + 1,
                 getExtensionsCalls := s.getExtensionsCalls + 1,
                 fieldWrites := s.fieldWrites + 2,
                 notifiedFieldWrites := s.notifiedFieldWrites + 2 } := by
  cases s
  simp_all [user_field_write, exec]

/-- Witness for C2: the theorem applied to a concrete steady state. -/
theorem user_write_round_trips_once_witness :
    user_field_write 5 ["u"] steadyState =
      Outcome.mk none
        { steadyState with fieldVal := ["u"],
                           registryVal := ["u"],
                           setExtensionsCalls := 1,
                           getExtensionsCalls := 1,
                           fieldWrites := 2,
                           notifiedFieldWrites := 2 } :=
  user_write_round_trips_once 0 ["u"] steadyState rfl rfl rfl rfl rfl rfl

/-- Counterexample for C4: the claim asserts that the suppress flag is
clear after the extension-point-change handler returns by raising an
exception from the registry read; in the code `_on_extension_point_changed`
has no try/finally, so when `_set_trait` raises, the line clearing
`_event_handled` never runs and the flag remains set after the handler. -/
theorem suppress_flag_stuck_after_exception :
    (on_extension_point_changed 3 faultyGetState).error =
      some Err.registryGetError
    ∧ (on_extension_point_changed 3 faultyGetState).state.event_handled =
        true := by
  constructor
  · rfl
  · rfl

/-- Claim C4 as amended: in a fault-free run the extension-point-change
handler performs exactly one notified field write, the field-change
notification delivered inside the flag window is ignored (no
set_extensions call), and the flag is clear again when the handler
returns; however, when the registry read or the field write raises, the
handler propagates the exception and the suppress flag remains set. -/
theorem suppress_flag_window (fuel : Nat) (s : BindingState) :
    (s.event_handled = false → s.traitListenerAttached = true →
     s.epListenerAttached = true → s.registryAttached = true →
     s.getFault = false → s.fieldSetFault = false →
     on_extension_point_changed (fuel + 3) s =
       Outcome.mk none
         { s with fieldVal := s.registryVal,
                  getExtensionsCalls := s.getExtensionsCalls + 1,
                  fieldWrites := s.fieldWrites + 1,
                  notifiedFieldWrites := s.notifiedFieldWrites + 1 })
    ∧ (s.registryAttached = true → s.getFault = true →
       on_extension_point_changed (fuel + 3) s =
         Outcome.mk (some Err.registryGetError)
           { s with event_handled := true })
    ∧ (s.registryAttached = true → s.getFault = false →
       s.fieldSetFault = true →
       on_extension_point_changed (fuel + 3) s =
         Outcome.mk (some Err.fieldSetError)
           { s with event_handled := true,
                    getExtensionsCalls := s.getExtensionsCalls + 1 }) := by
  refine ⟨fun h1 h2 h3 h4 h5 h6 => ?_, fun h4 h5 => ?_, fun h4 h5 h6 => ?_⟩
  all_goals cases s
  all_goals simp_all [on_extension_point_changed, exec]

/-- Witness for the amended C4: all three cases at concrete states. -/
theorem suppress_flag_window_witness :
    on_extension_point_changed 3 steadyState =
      Outcome.mk none
        { steadyState with fieldVal := ["ext1"],
                           getExtensionsCalls := 1,
                           fieldWrites := 1,
                           notifiedFieldWrites := 1 }
    ∧ on_extension_point_changed 3 faultyGetState =
        Outcome.mk (some Err.registryGetError)
          { faultyGetState with event_handled := true }
    ∧ on_extension_point_changed 3 faultyFieldSetState =
        Outcome.mk (some Err.fieldSetError)
          { faultyFieldSetState with event_handled := true,
                                     getExtensionsCalls := 1 } :=
  ⟨(suppress_flag_window 0 steadyState).1 rfl rfl rfl rfl rfl rfl,
   (suppress_flag_window 0 faultyGetState).2.1 rfl rfl,
   (suppress_flag_window 0 faultyFieldSetState).2.2 rfl rfl rfl⟩

/-- Claim C5: construction first writes the registry's current value into
the object's field silently (no notification, so the binding's own
change handler is not triggered and no set_extensions happens), and only
then subscribes the field listener and the extension-point listener. -/
theorem construct_pulls_then_subscribes
    (fuel : Nat) (s : BindingState)
    (h1 : s.registryAttached = true)
    (h2 : s.getFault = false)
    (h3 : s.fieldSetFault = false) :
    construct (fuel + 1) s =
      Outcome.mk none
        (wire_up { s with fieldVal := s.registryVal,
                          getExtensionsCalls := s.getExtensionsCalls + 1,
                          fieldWrites := s.fieldWrites + 1 }) := by
  cases s
  simp_all [construct, exec, wire_up]

/-- Witness for C5: constructing from a concrete fresh state. -/
theorem construct_pulls_then_subscribes_witness :
    construct 1 freshState =
      Outcome.mk none
        (wire_up { freshState with fieldVal := ["ext1"],
                                   getExtensionsCalls := 1,
                                   fieldWrites := 1 }) :=
  construct_pulls_then_subscribes 0 freshState rfl rfl rfl

/-- The two-stage filter (include then exclude) equals a single filter by
the spec's per-candidate predicate. -/
theorem filterPlugins_eq_filter_keep (incl excl : List String)
    (cs : List Plugin) :
    filterPlugins incl excl cs = cs.filter (fun p => keepPlugin incl excl p) := by
  unfold filterPlugins keepPlugin
  cases hI : incl.isEmpty <;> cases hE : excl.isEmpty <;>
    simp [hI, hE, List.filter_filter, Bool.and_comm]

/-- keepPlugin only looks at the plugin id, so starting a plugin does not
change whether it passes the filter. -/
theorem keepPlugin_of_start (incl excl : List String) (p : Plugin) :
    keepPlugin incl excl { p with started := true } =
      keepPlugin incl excl p := rfl

/-- keepPlugin only looks at the plugin id, so stopping a plugin does not
change whether it passes the filter. -/
theorem keepPlugin_of_stop (incl excl : List String) (p : Plugin) :
    keepPlugin incl excl { p with stopped := true } =
      keepPlugin incl excl p := rfl

/-- Claim C3: the manager's final plugins sequence is exactly the resolved
candidates whose id satisfies (include empty OR the id matches at least
one include pattern) AND (exclude empty OR the id matches no exclude
pattern), with shell-glob (fnmatch) matching of the id, OR-ed
independently across each list; an id matched by both lists fails the
second conjunct, so it is excluded. -/
theorem manager_plugins_are_glob_filtered_candidates
    (incl excl : List String) (cs : List Plugin) :
    (CanopyPluginManager incl excl cs).plugins =
      cs.filter (fun p =>
        (incl.isEmpty || incl.any (fun pat => fnmatch pat p.id)) &&
          (excl.isEmpty || !(excl.any (fun pat => fnmatch pat p.id)))) := by
  show filterPlugins incl excl cs = _
  rw [filterPlugins_eq_filter_keep]
  rfl

/-- The include-list example of the test fixture. -/
theorem include_list_check :
    (CanopyPluginManager ["acme.foo", "acme.bar"] [] testCandidates).plugins =
      [fooPlugin, barPlugin] := by decide

/-- The include-wildcard example of the test fixture. -/
theorem include_wildcard_check :
    (CanopyPluginManager ["acme.b*"] [] testCandidates).plugins =
      [barPlugin, bazPlugin] := by decide

/-- The exclude-list example of the test fixture. -/
theorem exclude_list_check :
    (CanopyPluginManager [] ["acme.foo", "acme.baz"] testCandidates).plugins =
      [barPlugin] := by decide

/-- The exclude-wildcard example of the test fixture. -/
theorem exclude_wildcard_check :
    (CanopyPluginManager [] ["acme.b*"] testCandidates).plugins =
      [fooPlugin] := by decide

/-- Glob features: single-character wildcard, classes, negated classes,
ranges, and case sensitivity. -/
theorem fnmatch_feature_check :
    fnmatch "acme.?oo" "acme.foo" = true
    ∧ fnmatch "acme.ba[rz]" "acme.baz" = true
    ∧ fnmatch "acme.ba[!r]" "acme.bar" = false
    ∧ fnmatch "a[b-d]e" "ace" = true
    ∧ fnmatch "ACME.*" "acme.foo" = false := by decide

/-- Claim C8: after start() every plugin in the manager's filtered
collection has started = true; after stop() every plugin in the
collection has started = true and stopped = true; and a candidate that
was filtered out is never in the collection at any stage, so the manager
never transitions it and sets neither of its flags. -/
theorem start_stop_cover_exactly_the_filtered_plugins
    (incl excl : List String) (cs : List Plugin) :
    (∀ p, p ∈ (CanopyPluginManager incl excl cs).start.plugins →
      p.started = true)
    ∧ (∀ p, p ∈ (CanopyPluginManager incl excl cs).start.stop.plugins →
        p.started = true ∧ p.stopped = true)
    ∧ (∀ p, p ∈ cs → keepPlugin incl excl p = false →
        p ∉ (CanopyPluginManager incl excl cs).plugins
        ∧ p ∉ (CanopyPluginManager incl excl cs).start.plugins
        ∧ p ∉ (CanopyPluginManager incl excl cs).start.stop.plugins) := by
  refine ⟨?_, ?_, ?_⟩
  · intro p hp
    simp only [CanopyPluginManager, PluginManager.start, List.mem_map] at hp
    obtain ⟨q, _, rfl⟩ := hp
    rfl
  · intro p hp
    simp only [CanopyPluginManager, PluginManager.start, PluginManager.stop,
      List.mem_reverse, List.mem_map] at hp
    obtain ⟨q, ⟨r, _, rfl⟩, rfl⟩ := hp
    exact ⟨rfl, rfl⟩
  · intro p _ hk
    rw [show (CanopyPluginManager incl excl cs).plugins =
        filterPlugins incl excl cs from rfl, filterPlugins_eq_filter_keep]
    refine ⟨fun hmem => ?_, fun hmem => ?_, fun hmem => ?_⟩
    · rw [List.mem_filter] at hmem
      rw [hk] at hmem
      exact Bool.false_ne_true hmem.2
    · simp only [CanopyPluginManager, PluginManager.start, List.mem_map,
        filterPlugins_eq_filter_keep] at hmem
      obtain ⟨q, hq, hpq⟩ := hmem
      rw [List.mem_filter] at hq
      have hkq : keepPlugin incl excl q = true := hq.2
      rw [← hpq, keepPlugin_of_start] at hk
      rw [hk] at hkq
      exact Bool.false_ne_true hkq
    · simp only [CanopyPluginManager, PluginManager.start, PluginManager.stop,
        List.mem_reverse, List.mem_map, filterPlugins_eq_filter_keep] at hmem
      obtain ⟨q, ⟨r, hr, hrq⟩, hqp⟩ := hmem
      rw [List.mem_filter] at hr
      have hkr : keepPlugin incl excl r = true := hr.2
      rw [← hqp, ← hrq, keepPlugin_of_stop, keepPlugin_of_start] at hk
      rw [hk] at hkr
      exact Bool.false_ne_true hkr

/-- Witness for C8: with exclude pattern acme.b* over the test fixture,
acme.foo (the only kept candidate) is started and stopped, while the
excluded acme.bar is never in the collection. -/
theorem start_stop_cover_exactly_the_filtered_plugins_witness :
    (Plugin.mk "acme.foo" true false).started = true
    ∧ ((Plugin.mk "acme.foo" true true).started = true
       ∧ (Plugin.mk "acme.foo" true true).stopped = true)
    ∧ (barPlugin ∉ (CanopyPluginManager [] ["acme.b*"] testCandidates).plugins
       ∧ barPlugin ∉
           (CanopyPluginManager [] ["acme.b*"] testCandidates).start.plugins
       ∧ barPlugin ∉
           (CanopyPluginManager [] ["acme.b*"]
             testCandidates).start.stop.plugins) :=
  ⟨(start_stop_cover_exactly_the_filtered_plugins [] ["acme.b*"]
      testCandidates).1 (Plugin.mk "acme.foo" true false) (by decide),
   (start_stop_cover_exactly_the_filtered_plugins [] ["acme.b*"]
      testCandidates).2.1 (Plugin.mk "acme.foo" true true) (by decide),
   (start_stop_cover_exactly_the_filtered_plugins [] ["acme.b*"]
      testCandidates).2.2 barPlugin (by decide) (by decide)⟩

/-- No operation of the callback cascade ever changes either listener
subscription: the source contains no on_trait_change removal and no
remove_extension_listener call. -/
theorem exec_preserves_listeners (fuel : Nat) :
    ∀ (c : Call) (s : BindingState),
    (exec fuel c s).state.traitListenerAttached = s.traitListenerAttached
    ∧ (exec fuel c s).state.epListenerAttached = s.epListenerAttached := by
  induction fuel with
  | zero => intro c s; simp [exec]
  | succ n ih =>
    intro c s
    cases c with
    | on_trait_changed new =>
      by_cases h1 : s.event_handled <;> by_cases h2 : s.registryAttached <;>
        simp [exec, h1, h2, ih]
    | registry_set_extensions v =>
      by_cases h : s.epListenerAttached <;> simp [exec, h, ih]
    | on_extension_point_changed =>
      cases hr : (exec n (Call.set_trait true)
          { s with event_handled := true }).error <;>
        simp [exec, hr, ih]
    | set_trait notify =>
      by_cases h1 : s.registryAttached <;> by_cases h2 : s.getFault <;>
        by_cases h3 : s.fieldSetFault <;>
        by_cases h4 : notify && s.traitListenerAttached <;>
        simp [exec, h1, h2, h3, h4, ih]

/-- Counterexample for C6: the claim says every binding provides a
dispose operation; the ExtensionPointBinding class (and its module)
defines no such method — its complete set of operations, taken from the
source, does not contain dispose, and nothing in the file removes a
listener. -/
theorem dispose_absent_from_binding :
    bindingMethodNames.contains "dispose" = false := by decide

/-- Claim C6 as amended: the binding provides no dispose operation at all;
no operation it does provide ever unsubscribes either listener, so once a
binding is constructed, synchronization in both directions continues for
the rest of the binding's lifetime and cannot be stopped. -/
theorem binding_has_no_dispose_and_never_unsubscribes :
    bindingMethodNames.contains "dispose" = false
    ∧ ∀ (fuel : Nat) (c : Call) (s : BindingState),
      (exec fuel c s).state.traitListenerAttached = s.traitListenerAttached
      ∧ (exec fuel c s).state.epListenerAttached = s.epListenerAttached :=
  ⟨by decide, fun fuel c s => exec_preserves_listeners fuel c s⟩

/-- Counterexample for C7: the claim says creating a binding with an
empty field name fails with ConfigurationError, subscribing no listener
and writing nothing; in the code, bind_extension_point performs no
validation whatsoever (and the module defines no ConfigurationError), so
construction with the empty field name succeeds, performs the initial
field write, and subscribes both listeners. -/
theorem empty_field_name_accepted :
    (bind_extension_point 1 emptyNameState).error = none
    ∧ (bind_extension_point 1 emptyNameState).state.traitListenerAttached =
        true
    ∧ (bind_extension_point 1 emptyNameState).state.epListenerAttached = true
    ∧ (bind_extension_point 1 emptyNameState).state.fieldWrites = 1 := by
  refine ⟨rfl, rfl, rfl, rfl⟩

/-- Claim C7 as amended: creating a binding validates nothing: for every
field name, including the empty string, construction succeeds (enthought
HasTraits accepts any attribute name, so the object never lacks the field
capability), performs the initial write and subscribes both listeners,
exactly as for any other name; no ConfigurationError is ever raised. -/
theorem bind_performs_no_validation
    (fuel : Nat) (name : String) (s : BindingState)
    (h1 : s.registryAttached = true)
    (h2 : s.getFault = false)
    (h3 : s.fieldSetFault = false) :
    bind_extension_point (fuel + 1) { s with trait_name := name } =
      Outcome.mk none
        (wire_up { s with trait_name := name,
                          fieldVal := s.registryVal,
                          getExtensionsCalls := s.getExtensionsCalls + 1,
                          fieldWrites := s.fieldWrites + 1 }) := by
  cases s
  simp_all [bind_extension_point, construct, exec, wire_up]

/-- Witness for the amended C7: constructing with the empty field name. -/
theorem bind_performs_no_validation_witness :
    bind_extension_point 1 emptyNameState =
      Outcome.mk none
        (wire_up { emptyNameState with fieldVal := ["ext1"],
                                       getExtensionsCalls := 1,
                                       fieldWrites := 1 }) :=
  bind_performs_no_validation 0 "" freshState rfl rfl rfl

/-- Claim C9: the binding uses the class-level extension_registry shared
by all instances (registryAttached embeds that single class attribute);
constructing while it is still None raises during the initial pull,
before either listener has been subscribed, leaving the state — in
particular the subscriptions — exactly as it was. -/
theorem construct_with_none_registry_fails_cleanly
    (fuel : Nat) (s : BindingState)
    (h1 : s.registryAttached = false)
    (h2 : s.traitListenerAttached = false)
    (h3 : s.epListenerAttached = false) :
    construct (fuel + 1) s = Outcome.mk (some Err.attributeError) s
    ∧ (construct (fuel + 1) s).state.traitListenerAttached = false
    ∧ (construct (fuel + 1) s).state.epListenerAttached = false := by
  cases s
  simp_all [construct, exec]

/-- Witness for C9: a concrete fresh state with no registry attached. -/
theorem construct_with_none_registry_fails_cleanly_witness :
    construct 1 noRegistryState =
      Outcome.mk (some Err.attributeError) noRegistryState
    ∧ (construct 1 noRegistryState).state.traitListenerAttached = false
    ∧ (construct 1 noRegistryState).state.epListenerAttached = false :=
  construct_with_none_registry_fails_cleanly 0 noRegistryState rfl rfl rfl

/-- Claim C10: constructing a binding never writes to the registry: the
constructor's initial pull calls get_extensions exactly once and makes no
set_extensions call, and the registry's contents are unchanged — the
initial field write carries no notification and the field listener is not
yet subscribed, so the only path to set_extensions is never reached. -/
theorem construct_reads_but_never_writes_registry
    (fuel : Nat) (s : BindingState)
    (h1 : s.registryAttached = true)
    (h2 : s.getFault = false)
    (h3 : s.fieldSetFault = false) :
    (construct (fuel + 1) s).state.setExtensionsCalls = s.setExtensionsCalls
    ∧ (construct (fuel + 1) s).state.registryVal = s.registryVal
    ∧ (construct (fuel + 1) s).state.getExtensionsCalls =
        s.getExtensionsCalls + 1
    ∧ (construct (fuel + 1) s).error = none := by
  cases s
  simp_all [construct, exec, wire_up]

/-- Witness for C10: constructing from a concrete fresh state. -/
theorem construct_reads_but_never_writes_registry_witness :
    (construct 1 freshState).state.setExtensionsCalls = 0
    ∧ (construct 1 freshState).state.registryVal = ["ext1"]
    ∧ (construct 1 freshState).state.getExtensionsCalls = 1
    ∧ (construct 1 freshState).error = none :=
  construct_reads_but_never_writes_registry 0 freshState rfl rfl rfl
